import Mathlib

/-!
Shallow embedding of `gp.go` (package `pg`), an ICMP ping engine skeleton.

Modelling conventions:
* `time.Duration` (an `int64` of nanoseconds) is modelled as `Int`; the
  claims and all witnesses stay far below the `int64` overflow range.
* Go `float64` values produced by the loss computation are modelled by
  `GFloat`: exact rationals plus the IEEE special values `NaN`, `+Inf`,
  `-Inf` that Go division by zero produces.  Finite float rounding is
  modelled as exact rational arithmetic (both the spec and the code
  describe the same expression, so rounding cancels in every comparison).
* External collaborators (DNS resolution via `net.ResolveIPAddr`, the
  ICMP socket via `icmp.ListenPacket`, the process random source) are
  parameters of the embedded functions: a resolver function, a Boolean
  listen outcome, and the two random draws used by `NewPinger`.
* Callback invocations are reified as an `Event` trace returned next to
  the updated engine state, so "callback fired k times" is a statement
  about the trace.
-/

/-- A resolved IP address (`*net.IPAddr`).  `net.IP.To4` is an external
collaborator, so whether the address is IPv4 is carried as a flag. -/
structure IPAddr where
  ip : String
  v4 : Bool
deriving DecidableEq, Repr, Inhabited

/-- Go `float64` results of the loss computation: exact rationals plus
the IEEE special values produced by division by zero. -/
inductive GFloat where
  | nan : GFloat
  | inf : GFloat
  | neginf : GFloat
  | fin : ℚ → GFloat
deriving DecidableEq, Repr, Inhabited

/-- Go `float64` division: `0/0 = NaN`, `x/0 = ±Inf` for `x ≠ 0`,
otherwise exact. -/
def gdiv (num den : ℚ) : GFloat :=
  if den = 0 then
    if num = 0 then GFloat.nan
    else if 0 < num then GFloat.inf
    else GFloat.neginf
  else GFloat.fin (num / den)

/-- Multiplication of a Go float by the positive literal `100`. -/
def gmul100 : GFloat → GFloat
  | GFloat.nan => GFloat.nan
  | GFloat.inf => GFloat.inf
  | GFloat.neginf => GFloat.neginf
  | GFloat.fin q => GFloat.fin (q * 100)

/-- Constant `timeSliceLen = 8`: bytes of the embedded send timestamp. -/
def timeSliceLen : Int := 8

/-- Constant `trackerLen = 8`: bytes of the embedded tracker token. -/
def trackerLen : Int := 8

/-- Constant: `time.Second` in nanoseconds. -/
def second : Int := 1000000000

/-- The `Pinger` struct.  The `done` channel is modelled by the flag
`doneClosed` (whether `close(p.done)` has run); the two callback fields
are modelled by presence flags, their invocations appear in the `Event`
trace. -/
structure Pinger where
  Count : Int
  Debug : Bool
  Interval : Int
  Timeout : Int
  PacketsSent : Int
  PacketsRecieve : Int
  OnRecieve : Bool
  OnFinish : Bool
  Size : Int
  Tracker : Int
  Source : String
  doneClosed : Bool
  rtts : List Int
  ipaddr : IPAddr
  addr : String
  ipv4 : Bool
  size : Int
  id : Int
  sequence : Int
  network : String
deriving DecidableEq, Repr, Inhabited

/-- The `Packet` struct (a received, matched ICMP packet). -/
structure Packet where
  Rtt : Int
  IPAddr : IPAddr
  Addr : String
  Nbytes : Int
  Sequence : Int
  TTL : Int
deriving DecidableEq, Repr, Inhabited

/-- The `Stats` struct. -/
structure Stats where
  PacketsRecieve : Int
  PacketsSent : Int
  PacketsLoss : GFloat
  IPAddr : IPAddr
  Addr : String
  Rtts : List Int
  MinRtt : Int
  MaxRtt : Int
  AvgRtt : Int
  StdDevRtt : Int
deriving DecidableEq, Repr, Inhabited

/-- Function `isIPv4`: `net.IPv4len == len(ip.To4())`; `To4` is external, so this
reads the stored flag. -/
def isIPv4 (ip : IPAddr) : Bool := ip.v4

/-- Constructor `NewPinger`.  `resolve` stands for `net.ResolveIPAddr("ip", addr)`;
`idSeed`/`trkSeed` are the process random draws: `r.Intn(math.MaxInt16)`
yields a value in `[0, 32767)` and `r.Int63n(math.MaxInt64)` a value in
`[0, 2^63-1)`, modelled as the seeds reduced mod those bounds. -/
def NewPinger (resolve : String → Except String IPAddr)
    (idSeed trkSeed : Nat) (addr : String) : Except String Pinger :=
  match resolve addr with
  | Except.error err => Except.error err
  | Except.ok ipaddr =>
    let ipv4 := if isIPv4 ipaddr then true else false
    Except.ok
      { ipaddr := ipaddr
        addr := addr
        Interval := second
        Timeout := second * 100
        Count := -1
        id := (idSeed % 32767 : Nat)
        network := "udp"
        ipv4 := ipv4
        size := timeSliceLen
        Tracker := (trkSeed % 9223372036854775807 : Nat)
        doneClosed := false
        -- remaining fields take Go zero values
        Debug := false
        PacketsSent := 0
        PacketsRecieve := 0
        OnRecieve := false
        OnFinish := false
        Size := 0
        Source := ""
        rtts := []
        sequence := 0 }

/-- Observable callback invocations of a run. -/
inductive Event where
  | packetCb : Packet → Event
  | finishCb : Stats → Event
deriving DecidableEq, Repr

/-- Whether an event is a per-packet callback invocation. -/
def Event.isPacketCb : Event → Bool
  | Event.packetCb _ => true
  | Event.finishCb _ => false

/-- The `for _, rtt := range p.rtts` loop of `GenerateStats`: threads
the `min`, `max`, `total` accumulators through the sample list. -/
def scanRtts : List Int → Int → Int → Int → Int × Int × Int
  | [], mn, mx, total => (mn, mx, total)
  | rtt :: rest, mn, mx, total =>
      scanRtts rest (if rtt < mn then rtt else mn)
        (if mx < rtt then rtt else mx) (total + rtt)

/-- Model of `math.Sqrt` applied to a nonnegative `float64` followed by the truncating
conversion back to `time.Duration`: the floor of the real square root,
exact on the range where the `int64 → float64` conversion is exact. -/
def goSqrtTrunc (x : Int) : Int := Int.ofNat (Nat.sqrt x.toNat)

/-- Function `GenerateStats`, state-passing: the source assigns no field of `p`,
so the returned engine is the input engine; the snapshot is built
exactly as the source builds `s`. -/
def GenerateStatsS (p : Pinger) : Stats × Pinger :=
  let loss := gmul100 (gdiv ((p.PacketsSent - p.PacketsRecieve : Int) : ℚ)
    ((p.PacketsSent : Int) : ℚ))
  let mn0 : Int := 0
  let mx0 : Int := 0
  let seeded := match p.rtts with
    | [] => (mn0, mx0)
    | r :: _ => (r, r)
  let scanned := scanRtts p.rtts seeded.1 seeded.2 0
  let s : Stats :=
    { PacketsSent := p.PacketsSent
      PacketsRecieve := p.PacketsRecieve
      PacketsLoss := loss
      Rtts := p.rtts
      Addr := p.addr
      IPAddr := p.ipaddr
      MaxRtt := scanned.2.1
      MinRtt := scanned.1
      AvgRtt := 0
      StdDevRtt := 0 }
  if 0 < p.rtts.length then
    let avg := Int.tdiv scanned.2.2 (p.rtts.length : Int)
    let sumSquares := p.rtts.foldl (fun acc rtt => acc + (rtt - avg) * (rtt - avg)) 0
    (( { s with AvgRtt := avg
                StdDevRtt := goSqrtTrunc (Int.tdiv sumSquares (p.rtts.length : Int)) } : Stats), p)
  else
    (s, p)

/-- The snapshot component of `GenerateStats`. -/
def GenerateStats (p : Pinger) : Stats := (GenerateStatsS p).1

/-- Method `finish`: invokes `OnFinish` with a fresh snapshot when the handler
is set, otherwise does nothing. -/
def finish (p : Pinger) : Pinger × List Event :=
  if p.OnFinish then (p, [Event.finishCb (GenerateStats p)]) else (p, [])

/-- Method `listen`: `icmp.ListenPacket` is external, its success is the `ok`
parameter.  On failure the source logs, closes `p.done` and returns
`nil`. -/
def listen (p : Pinger) (ok : Bool) : Option Unit × Pinger :=
  if ok then (some (), p) else (none, { p with doneClosed := true })

/-- Method `Run`: acquires the connection for the address family, returns early
(no `finish`) when acquisition fails, otherwise sets the control-message
option (external, no engine state) and returns, running the deferred
`finish` and `Close`.  Note the source body contains no send or receive
loop. -/
def Run (p : Pinger) (listenOk : Bool) : Pinger × List Event :=
  if p.ipv4 then
    match listen p listenOk with
    | (none, q) => (q, [])
    | (some _, q) => finish q
  else
    match listen p listenOk with
    | (none, q) => (q, [])
    | (some _, q) => finish q

/-- A resolver that succeeds with a fixed IPv4 address. -/
def testResolve : String → Except String IPAddr :=
  fun _ => Except.ok { ip := "127.0.0.1", v4 := true }

/-- A resolver that always fails. -/
def failResolve : String → Except String IPAddr :=
  fun _ => Except.error "lookup failed"

/-- The engine of end-to-end scenario A: freshly constructed, then
configured with `Count = 5`, `Interval = 10ms` and both callbacks set. -/
def scenarioAPinger : Pinger :=
  match NewPinger testResolve 7 42 "localhost" with
  | Except.ok p =>
      { p with Count := 5, Interval := 10000000, OnRecieve := true, OnFinish := true }
  | Except.error _ => default

/-- An engine exactly as `NewPinger` returns it (no configuration). -/
def freshPinger : Pinger :=
  match NewPinger testResolve 7 42 "localhost" with
  | Except.ok p => p
  | Except.error _ => default

/-- An engine state after 5 sends with 3 matched replies. -/
def statsLossPinger : Pinger :=
  { freshPinger with PacketsSent := 5, PacketsRecieve := 3 }

/-- An engine state holding the two RTT samples 1ns and 2ns. -/
def stats12Pinger : Pinger :=
  { freshPinger with PacketsSent := 2, PacketsRecieve := 2, rtts := [1, 2] }

/- Helper lemmas relating the Go accumulator loop to list folds. -/

lemma scanRtts_eq (l : List Int) (m M t : Int) :
    scanRtts l m M t = (l.foldl min m, l.foldl max M, t + l.sum) := by
  induction l generalizing m M t with
  | nil => simp [scanRtts]
  | cons r rest ih =>
      rw [scanRtts, ih]
      have hmin : (if r < m then r else m) = min m r := by
        rcases lt_or_le r m with h | h
        · simp [h, min_eq_right h.le]
        · simp [not_lt.mpr h, min_eq_left h]
      have hmax : (if M < r then r else M) = max M r := by
        rcases lt_or_le M r with h | h
        · simp [h, max_eq_right h.le]
        · simp [not_lt.mpr h, max_eq_left h]
      rw [hmin, hmax, List.foldl_cons, List.foldl_cons, List.sum_cons]
      simp only [Prod.mk.injEq, and_true, true_and, eq_self_iff_true]
      ring

lemma foldl_min_le_init (l : List Int) (m : Int) : l.foldl min m ≤ m := by
  induction l generalizing m with
  | nil => simp
  | cons a as ih => exact le_trans (ih (min m a)) (min_le_left _ _)

lemma foldl_min_le_mem (l : List Int) (m : Int) :
    ∀ x ∈ l, l.foldl min m ≤ x := by
  induction l generalizing m with
  | nil => intro x hx; cases hx
  | cons a as ih =>
      intro x hx
      rcases List.mem_cons.mp hx with rfl | hx
      · exact le_trans (foldl_min_le_init as (min m x)) (min_le_right _ _)
      · exact ih (min m a) x hx

lemma foldl_min_mem (l : List Int) (m : Int) :
    l.foldl min m = m ∨ l.foldl min m ∈ l := by
  induction l generalizing m with
  | nil => exact Or.inl rfl
  | cons a as ih =>
      rcases ih (min m a) with h | h
      · rcases le_total m a with hle | hle
        · exact Or.inl (by rw [List.foldl_cons, h, min_eq_left hle])
        · exact Or.inr (by rw [List.foldl_cons, h, min_eq_right hle]; exact List.mem_cons_self a as)
      · exact Or.inr (List.mem_cons_of_mem a h)

lemma foldl_max_ge_init (l : List Int) (m : Int) : m ≤ l.foldl max m := by
  induction l generalizing m with
  | nil => simp
  | cons a as ih => exact le_trans (le_max_left _ _) (ih (max m a))

lemma foldl_max_ge_mem (l : List Int) (m : Int) :
    ∀ x ∈ l, x ≤ l.foldl max m := by
  induction l generalizing m with
  | nil => intro x hx; cases hx
  | cons a as ih =>
      intro x hx
      rcases List.mem_cons.mp hx with rfl | hx
      · exact le_trans (le_max_right _ _) (foldl_max_ge_init as (max m x))
      · exact ih (max m a) x hx

lemma foldl_max_mem (l : List Int) (m : Int) :
    l.foldl max m = m ∨ l.foldl max m ∈ l := by
  induction l generalizing m with
  | nil => exact Or.inl rfl
  | cons a as ih =>
      rcases ih (max m a) with h | h
      · rcases le_total m a with hle | hle
        · exact Or.inr (by rw [List.foldl_cons, h, max_eq_right hle]; exact List.mem_cons_self a as)
        · exact Or.inl (by rw [List.foldl_cons, h, max_eq_left hle])
      · exact Or.inr (List.mem_cons_of_mem a h)

lemma foldl_addsq_eq_sum_map (l : List Int) (a c : Int) :
    l.foldl (fun acc rtt => acc + (rtt - a) * (rtt - a)) c =
      c + (l.map (fun rtt => (rtt - a) * (rtt - a))).sum := by
  induction l generalizing c with
  | nil => simp
  | cons x rest ih => simp [List.foldl_cons, ih]; ring

lemma generateStats_snd (p : Pinger) : (GenerateStatsS p).2 = p := by
  cases hl : p.rtts with
  | nil => simp [GenerateStatsS, hl]
  | cons r rest => simp [GenerateStatsS, hl]

lemma generateStats_cons (p : Pinger) (r : Int) (rest : List Int)
    (hl : p.rtts = r :: rest) :
    (GenerateStats p).MinRtt = rest.foldl min r ∧
    (GenerateStats p).MaxRtt = rest.foldl max r ∧
    (GenerateStats p).AvgRtt = Int.tdiv (r :: rest).sum ((r :: rest).length : Int) ∧
    (GenerateStats p).StdDevRtt = goSqrtTrunc (Int.tdiv
      (((r :: rest).map (fun rtt =>
        (rtt - (GenerateStats p).AvgRtt) * (rtt - (GenerateStats p).AvgRtt))).sum)
      ((r :: rest).length : Int)) := by
  unfold GenerateStats GenerateStatsS
  rw [hl]
  simp [scanRtts_eq, foldl_addsq_eq_sum_map]

/-- Claim C1 evaluation: with `Count = 5` and a transport whose would-be
echoes are irrelevant because `Run` never sends, the run ends with zero
packets sent and received, zero per-packet callback invocations, and the
loss reported to the completion callback is `NaN` (0/0), contradicting
the claimed sent=5, received=5, loss=0, five callbacks. -/
theorem gp_C1_run_sends_nothing :
    scenarioAPinger.Count = 5 ∧
    (Run scenarioAPinger true).1.PacketsSent = 0 ∧
    (Run scenarioAPinger true).1.PacketsRecieve = 0 ∧
    (Run scenarioAPinger true).2.filter Event.isPacketCb = [] ∧
    (GenerateStats (Run scenarioAPinger true).1).PacketsLoss = GFloat.nan := by
  refine ⟨rfl, rfl, rfl, rfl, rfl⟩

/-- Claim C2 counterexample: with the completion callback set and
connection acquisition failing, the run aborts but invokes NO callback
at all, so the failure is not surfaced through the completion
callback. -/
theorem gp_C2_counterexample :
    scenarioAPinger.OnFinish = true ∧
    (Run scenarioAPinger false).2 = [] ∧
    (Run scenarioAPinger false).1.PacketsSent = 0 := by
  refine ⟨rfl, rfl, rfl⟩

/-- Claim C2 (amended): when the transport connection cannot be
acquired the run aborts before any send — counters unchanged, the done
channel closed — and no callback of any kind is invoked. -/
theorem gp_C2_listen_failure (p : Pinger) :
    Run p false = ({ p with doneClosed := true }, []) := by
  unfold Run
  rw [ite_self]
  rfl

/-- Claim C3 counterexample: a freshly constructed engine has zero
samples and zero sent, and its snapshot reports the loss percentage as
the float `NaN` (0/0), not a defined numeric value. -/
theorem gp_C3_counterexample :
    freshPinger.PacketsSent = 0 ∧ freshPinger.rtts = [] ∧
    (GenerateStats freshPinger).MinRtt = 0 ∧
    (GenerateStats freshPinger).PacketsLoss = GFloat.nan := by
  refine ⟨rfl, rfl, rfl, rfl⟩

/-- Claim C3 (amended): with zero recorded samples the snapshot reports
min = max = avg = stddev = 0, but the loss percentage when `sent == 0`
and `received == 0` is the float `NaN`, not a defined value. -/
theorem gp_C3_zero_samples (p : Pinger) (h : p.rtts = []) :
    (GenerateStats p).MinRtt = 0 ∧ (GenerateStats p).MaxRtt = 0 ∧
    (GenerateStats p).AvgRtt = 0 ∧ (GenerateStats p).StdDevRtt = 0 ∧
    (p.PacketsSent = 0 → p.PacketsRecieve = 0 →
      (GenerateStats p).PacketsLoss = GFloat.nan) := by
  refine ⟨?_, ?_, ?_, ?_, ?_⟩
  · simp [GenerateStats, GenerateStatsS, h, scanRtts]
  · simp [GenerateStats, GenerateStatsS, h, scanRtts]
  · simp [GenerateStats, GenerateStatsS, h, scanRtts]
  · simp [GenerateStats, GenerateStatsS, h, scanRtts]
  · intro hs hr
    simp [GenerateStats, GenerateStatsS, h, hs, hr, scanRtts, gdiv, gmul100]

/-- Claim C3 witness: the amended statement evaluated on the fresh
engine. -/
theorem gp_C3_witness :
    freshPinger.rtts = [] ∧ (GenerateStats freshPinger).AvgRtt = 0 ∧
    (GenerateStats freshPinger).PacketsLoss = GFloat.nan := by
  have h := gp_C3_zero_samples freshPinger rfl
  exact ⟨rfl, h.2.2.1, h.2.2.2.2 rfl rfl⟩

/-- Claim C4 counterexample: construction succeeds with an internal
payload size of 8 bytes (`timeSliceLen` alone), which is below the 16
bytes the claim requires, and no configuration error is raised. -/
theorem gp_C4_counterexample :
    NewPinger testResolve 7 42 "localhost" = Except.ok freshPinger ∧
    freshPinger.size = 8 ∧ ¬(16 ≤ freshPinger.size) := by
  refine ⟨rfl, rfl, by decide⟩

/-- Claim C4 (amended): every successful construction sets the payload
size to `timeSliceLen` = 8 bytes — room for the timestamp only, not the
tracker — and no size validation rejects any configuration. -/
theorem gp_C4_size_is_eight (resolve : String → Except String IPAddr)
    (i t : Nat) (a : String) (ip : IPAddr) (h : resolve a = Except.ok ip) :
    ∃ p, NewPinger resolve i t a = Except.ok p ∧
      p.size = timeSliceLen ∧ p.size < 16 := by
  unfold NewPinger
  rw [h]
  refine ⟨_, rfl, rfl, ?_⟩
  show timeSliceLen < 16
  decide

/-- Claim C4 witness: the amended statement evaluated on the test
resolver. -/
theorem gp_C4_witness :
    testResolve "localhost" = Except.ok { ip := "127.0.0.1", v4 := true } ∧
    ∃ p, NewPinger testResolve 7 42 "localhost" = Except.ok p ∧
      p.size = timeSliceLen ∧ p.size < 16 :=
  ⟨rfl, gp_C4_size_is_eight testResolve 7 42 "localhost"
    { ip := "127.0.0.1", v4 := true } rfl⟩

/-- Claim C5: whenever the sent count is positive, the reported loss is
exactly `(sent - received) / sent * 100` as a finite value. -/
theorem gp_C5_loss_formula (p : Pinger) (h : 0 < p.PacketsSent) :
    (GenerateStats p).PacketsLoss =
      GFloat.fin (((p.PacketsSent - p.PacketsRecieve : Int) : ℚ) /
        ((p.PacketsSent : Int) : ℚ) * 100) := by
  have hne : ((p.PacketsSent : Int) : ℚ) ≠ 0 := Int.cast_ne_zero.mpr h.ne'
  cases hl : p.rtts with
  | nil => simp [GenerateStats, GenerateStatsS, hl, gdiv, gmul100, hne]
  | cons r rest => simp [GenerateStats, GenerateStatsS, hl, gdiv, gmul100, hne]

/-- Claim C5 witness: 5 sent, 3 received gives exactly 40 percent
loss. -/
theorem gp_C5_witness :
    0 < statsLossPinger.PacketsSent ∧
    (GenerateStats statsLossPinger).PacketsLoss = GFloat.fin 40 := by
  refine ⟨by decide, ?_⟩
  rw [gp_C5_loss_formula statsLossPinger (by decide)]
  have h5 : statsLossPinger.PacketsSent = 5 := rfl
  have h3 : statsLossPinger.PacketsRecieve = 3 := rfl
  rw [h5, h3]
  norm_num

/-- Claim C6 counterexample: for the samples 1ns and 2ns the snapshot
reports an average of 1, which is not the arithmetic mean 3/2 — the
source divides with truncating integer division. -/
theorem gp_C6_counterexample :
    stats12Pinger.rtts = [1, 2] ∧
    ¬(((GenerateStats stats12Pinger).AvgRtt : ℚ) =
      ((stats12Pinger.rtts.sum : Int) : ℚ) /
        ((stats12Pinger.rtts.length : Nat) : ℚ)) := by
  constructor
  · rfl
  · have hA : (GenerateStats stats12Pinger).AvgRtt = 1 := rfl
    have hs : stats12Pinger.rtts = [1, 2] := rfl
    rw [hA, hs]
    norm_num

/-- Claim C6 (amended): for a non-empty sample sequence, MinRtt and
MaxRtt are the minimum and maximum of the samples, AvgRtt is the sum of
the samples divided by their count with truncating integer division
(not the exact arithmetic mean), and StdDevRtt is the integer floor of
the square root of the truncating integer quotient of the sum of
squared deviations from that truncated average by the count. -/
theorem gp_C6_stats_summary (p : Pinger) (h : p.rtts ≠ []) :
    (GenerateStats p).MinRtt ∈ p.rtts ∧
    (∀ x ∈ p.rtts, (GenerateStats p).MinRtt ≤ x) ∧
    (GenerateStats p).MaxRtt ∈ p.rtts ∧
    (∀ x ∈ p.rtts, x ≤ (GenerateStats p).MaxRtt) ∧
    (GenerateStats p).AvgRtt = Int.tdiv p.rtts.sum (p.rtts.length : Int) ∧
    (GenerateStats p).StdDevRtt = goSqrtTrunc (Int.tdiv
      ((p.rtts.map (fun rtt =>
        (rtt - (GenerateStats p).AvgRtt) * (rtt - (GenerateStats p).AvgRtt))).sum)
      (p.rtts.length : Int)) := by
  obtain ⟨r, rest, hl⟩ := List.exists_cons_of_ne_nil h
  obtain ⟨hmin, hmax, havg, hstd⟩ := generateStats_cons p r rest hl
  refine ⟨?_, ?_, ?_, ?_, ?_, ?_⟩
  · rw [hl, hmin]
    rcases foldl_min_mem rest r with he | he
    · rw [he]; exact List.mem_cons_self r rest
    · exact List.mem_cons_of_mem r he
  · intro x hx
    rw [hl] at hx
    rw [hmin]
    rcases List.mem_cons.mp hx with rfl | hx
    · exact foldl_min_le_init rest x
    · exact foldl_min_le_mem rest r x hx
  · rw [hl, hmax]
    rcases foldl_max_mem rest r with he | he
    · rw [he]; exact List.mem_cons_self r rest
    · exact List.mem_cons_of_mem r he
  · intro x hx
    rw [hl] at hx
    rw [hmax]
    rcases List.mem_cons.mp hx with rfl | hx
    · exact foldl_max_ge_init rest x
    · exact foldl_max_ge_mem rest r x hx
  · rw [hl]; exact havg
  · rw [hl]; exact hstd

/-- Claim C6 witness: the amended statement evaluated on the engine
holding samples 1 and 2. -/
theorem gp_C6_witness :
    stats12Pinger.rtts ≠ [] ∧
    (GenerateStats stats12Pinger).MinRtt ∈ stats12Pinger.rtts ∧
    (GenerateStats stats12Pinger).AvgRtt =
      Int.tdiv stats12Pinger.rtts.sum (stats12Pinger.rtts.length : Int) := by
  have h := gp_C6_stats_summary stats12Pinger (by decide)
  exact ⟨by decide, h.1, h.2.2.2.2.1⟩

/-- Claim C7: a run whose connection is acquired reaches the deferred
finish step exactly once; when the completion callback is set, the
trace holds exactly one completion invocation, carrying the snapshot of
the engine state at finish time. -/
theorem gp_C7_finish_exactly_once (p : Pinger) (h : p.OnFinish = true) :
    (Run p true).2 = [Event.finishCb (GenerateStats p)] := by
  unfold Run
  rw [ite_self]
  show (finish p).2 = _
  unfold finish
  rw [h]
  rfl

/-- Claim C7 witness: the scenario engine with completion callback set
fires it exactly once. -/
theorem gp_C7_witness :
    scenarioAPinger.OnFinish = true ∧
    (Run scenarioAPinger true).2 =
      [Event.finishCb (GenerateStats scenarioAPinger)] :=
  ⟨rfl, gp_C7_finish_exactly_once scenarioAPinger rfl⟩

/-- Claim C8: construction propagates the resolution error and yields
no engine when the address does not resolve, and binds the engine to
the resolved address and the original address string when it does. -/
theorem gp_C8_resolution (resolve : String → Except String IPAddr)
    (i t : Nat) (a : String) :
    (∀ e, resolve a = Except.error e →
      NewPinger resolve i t a = Except.error e) ∧
    (∀ ip, resolve a = Except.ok ip →
      ∃ p, NewPinger resolve i t a = Except.ok p ∧
        p.ipaddr = ip ∧ p.addr = a) := by
  constructor
  · intro e he
    unfold NewPinger
    rw [he]
  · intro ip hip
    unfold NewPinger
    rw [hip]
    exact ⟨_, rfl, rfl, rfl⟩

/-- Claim C8 witness: the failing resolver propagates its error and the
succeeding resolver yields an engine bound to the resolved address. -/
theorem gp_C8_witness :
    failResolve "nohost" = Except.error "lookup failed" ∧
    NewPinger failResolve 7 42 "nohost" = Except.error "lookup failed" ∧
    testResolve "localhost" = Except.ok { ip := "127.0.0.1", v4 := true } ∧
    ∃ p, NewPinger testResolve 7 42 "localhost" = Except.ok p ∧
      p.ipaddr = { ip := "127.0.0.1", v4 := true } ∧ p.addr = "localhost" :=
  ⟨rfl, (gp_C8_resolution failResolve 7 42 "nohost").1 "lookup failed" rfl,
   rfl, (gp_C8_resolution testResolve 7 42 "localhost").2
     { ip := "127.0.0.1", v4 := true } rfl⟩

/-- Claim C9: computing a snapshot leaves the engine state unchanged
(the source assigns no field of the receiver), so a repeated snapshot
of the resulting state equals the first. -/
theorem gp_C9_stats_pure (p : Pinger) :
    (GenerateStatsS p).2 = p ∧
    (GenerateStatsS ((GenerateStatsS p).2)).1 = (GenerateStatsS p).1 := by
  refine ⟨generateStats_snd p, ?_⟩
  rw [generateStats_snd p]

/-- Claim C10: with no completion callback set, finish touches nothing:
it returns the engine unchanged and invokes no callback. -/
theorem gp_C10_nil_onfinish (p : Pinger) (h : p.OnFinish = false) :
    finish p = (p, []) := by
  simp [finish, h]

/-- Claim C10 witness: the fresh engine has no completion callback and
finishing it is a no-op. -/
theorem gp_C10_witness :
    freshPinger.OnFinish = false ∧ finish freshPinger = (freshPinger, []) :=
  ⟨rfl, gp_C10_nil_onfinish freshPinger rfl⟩
